import Mathlib

/-!
Shallow embedding of the payment-gateway service (`src/index.js`) and proofs
of the specification's claims about it.

The service is an Express app whose `/pay` handler runs a linear pipeline:
validate fields, resolve a bank code from a mobile-network name, authenticate
against an upstream gateway, perform a name enquiry, persist a pending payment
record, advance it to processing, submit a collection request, and finalize
the record to `completed` or `failed`.

The embedding models JavaScript values (as found in JSON request/response
bodies) with an inductive `Json` type carrying JS truthiness, models the three
outbound HTTP calls by their outcomes (success payload or axios-style error),
and models the database by the ordered trace of writes the handler performs.
-/

namespace PaymentGateway

/-- JavaScript values as they appear in request bodies, upstream response
payloads and environment lookups.  Numbers are rationals with `none`
standing for `NaN` (the embedding covers finite numbers). -/
inductive Json where
  | jUndef : Json
  | jNull : Json
  | jBool : Bool → Json
  | jNum : Option ℚ → Json
  | jStr : String → Json
  | jObj : List (String × Json) → Json

namespace Json

/-- Property access `o?.k`: the first binding of `k` in an object, and
`undefined` on a missing key or a non-object (the source only dereferences
possibly-absent values through optional chaining). -/
def get : Json → String → Json
  | jObj fields, k =>
    match fields.find? (fun p => p.fst = k) with
    | some p => p.snd
    | none => jUndef
  | _, _ => jUndef

/-- JavaScript truthiness: `undefined`, `null`, `false`, `0`, `NaN` and the
empty string are falsy; every other value (any object included) is truthy. -/
def truthy : Json → Bool
  | jUndef => false
  | jNull => false
  | jBool b => b
  | jNum none => false
  | jNum (some q) => q ≠ 0
  | jStr s => s ≠ ""
  | jObj _ => true

end Json

/-- The JS `a || b` operator: `a` when truthy, otherwise `b`. -/
def jsOr (a b : Json) : Json := if a.truthy then a else b

/-- A left-to-right `||` chain over a list, yielding `undefined` for the
empty chain. -/
def jsOrChain : List Json → Json
  | [] => Json.jUndef
  | [a] => a
  | a :: rest => jsOr a (jsOrChain rest)

/-- JS strict equality of a value against a string literal (`v === "s"`):
true exactly when the value is that string. -/
def jsEqStr (v : Json) (s : String) : Bool :=
  match v with
  | Json.jStr t => t = s
  | _ => false

/-- Rational rendered as a string; integers print without a denominator.
Used only inside serialized payload strings, which no upstream consumer of
this model inspects structurally. -/
def ratStr (q : ℚ) : String :=
  if q.den = 1 then toString q.num else toString q.num ++ "/" ++ toString q.den

/-- JS `String.prototype.toUpperCase` (over the ASCII range the network
names use). -/
def jsToUpper (s : String) : String :=
  String.mk (s.data.map Char.toUpper)

/-- JS `String.prototype.trim`: strip leading and trailing whitespace. -/
def jsTrim (s : String) : String :=
  String.mk
    ((s.data.dropWhile Char.isWhitespace).reverse.dropWhile Char.isWhitespace).reverse

/-- Conversion applied by JS template literals (`${v}`). -/
def jsToString : Json → String
  | Json.jUndef => "undefined"
  | Json.jNull => "null"
  | Json.jBool b => if b then "true" else "false"
  | Json.jNum none => "NaN"
  | Json.jNum (some q) => ratStr q
  | Json.jStr s => s
  | Json.jObj _ => "[object Object]"

mutual
/-- Model of `JSON.stringify`: objects drop `undefined`-valued fields,
`NaN` serializes as `null`. -/
def stringify : Json → String
  | Json.jUndef => "undefined"
  | Json.jNull => "null"
  | Json.jBool b => if b then "true" else "false"
  | Json.jNum none => "null"
  | Json.jNum (some q) => ratStr q
  | Json.jStr s => "\"" ++ s ++ "\""
  | Json.jObj fields => "\x7b" ++ stringifyFields fields ++ "\x7d"

def stringifyFields : List (String × Json) → String
  | [] => ""
  | (k, v) :: rest =>
    match v with
    | Json.jUndef => stringifyFields rest
    | _ =>
      "\"" ++ k ++ "\":" ++ stringify v ++
      (match rest with | [] => "" | _ => "," ++ stringifyFields rest)
end

/-- Consume a run of decimal digits: accumulated value, number of digits
consumed, and the remaining characters. -/
def parseDigits (acc count : Nat) : List Char → Nat × Nat × List Char
  | [] => (acc, count, [])
  | c :: cs =>
    if c.isDigit then parseDigits (acc * 10 + (c.toNat - 48)) (count + 1) cs
    else (acc, count, c :: cs)

/-- Exponent part of a JS float literal (`e`/`E`, optional sign, digits);
ignored entirely when no digit follows, as `parseFloat` does. -/
def parseExponent (cs : List Char) : Int :=
  match cs with
  | c :: rest =>
    if c = 'e' ∨ c = 'E' then
      match rest with
      | '-' :: ds => let (v, n, _) := parseDigits 0 0 ds
                     if n = 0 then 0 else -(v : Int)
      | '+' :: ds => let (v, n, _) := parseDigits 0 0 ds
                     if n = 0 then 0 else (v : Int)
      | ds => let (v, n, _) := parseDigits 0 0 ds
              if n = 0 then 0 else (v : Int)
    else 0
  | [] => 0

/-- Leading-float parse of a string, as JS `parseFloat` does on finite
decimal inputs: optional sign, digits, optional fraction, optional exponent,
trailing garbage ignored; `none` (`NaN`) when no digit is found. -/
def parseFloatStr (s : String) : Option ℚ :=
  let cs := s.data.dropWhile Char.isWhitespace
  let (sign, cs) : ℚ × List Char :=
    match cs with
    | '-' :: rest => (-1, rest)
    | '+' :: rest => (1, rest)
    | _ => (1, cs)
  let (intVal, intCnt, rest) := parseDigits 0 0 cs
  let (fracVal, fracCnt, rest2) : Nat × Nat × List Char :=
    match rest with
    | '.' :: ds => let (v, n, r) := parseDigits 0 0 ds
                   (v, n, r)
    | _ => (0, 0, rest)
  if intCnt = 0 ∧ fracCnt = 0 then none
  else
    let e := parseExponent rest2
    some (sign * ((intVal : ℚ) + (fracVal : ℚ) / (10 : ℚ) ^ fracCnt) * (10 : ℚ) ^ e)

/-- JS `parseFloat` applied to an arbitrary value: numbers reparse to
themselves, strings go through the leading-float parse, everything else
(including `undefined`, `null`, booleans, objects) is `NaN`. -/
def jsParseFloat : Json → Option ℚ
  | Json.jNum n => n
  | Json.jStr s => parseFloatStr s
  | _ => none

/-- JS `parseInt` on decimal inputs: optional sign then leading digits;
`NaN` when no digit is found. -/
def jsParseInt : Json → Option ℚ
  | Json.jNum none => none
  | Json.jNum (some q) =>
    -- parseInt(String(q)) keeps the integer part for finite decimals
    some (q.num / (q.den : Int) : Int)
  | Json.jStr s =>
    let cs := s.data.dropWhile Char.isWhitespace
    let (sign, cs) : Int × List Char :=
      match cs with
      | '-' :: rest => (-1, rest)
      | '+' :: rest => (1, rest)
      | _ => (1, cs)
    let (v, n, _) := parseDigits 0 0 cs
    if n = 0 then none else some ((sign * (v : Int) : Int) : ℚ)
  | _ => none

end PaymentGateway

namespace PaymentGateway

/-- Environment configuration: per-network bank codes (possibly unset or
empty) and the partner code. -/
structure Env where
  mtnBankCode : Option String
  airteltigoBankCode : Option String
  telecelBankCode : Option String
  partnerCode : String

/-- `generateTransactionID`: prefix `MSH-` followed by the current epoch
milliseconds, supplied here as an explicit timestamp. -/
def generateTransactionID (timestamp : Nat) : String :=
  "MSH-" ++ toString timestamp

/-- The `networkMap` lookup inside `getNetworkBankCode`: the configured bank
code for an (already uppercased, trimmed) network name, `none` when the name
is not a key of the map or the environment variable is unset. -/
def configuredBankCode (env : Env) (networkUpper : String) : Option String :=
  if networkUpper = "MTN" then env.mtnBankCode
  else if networkUpper = "AIRTELTIGO" then env.airteltigoBankCode
  else if networkUpper = "TELECEL" then env.telecelBankCode
  else none

/-- `getNetworkBankCode`: uppercase and trim the network name, look it up in
the fixed map `\x7bMTN, AIRTELTIGO, TELECEL\x7d → env bank code`, and throw
when the lookup misses or the configured code is falsy (unset or empty). -/
def getNetworkBankCode (env : Env) (network : String) : Except String String :=
  let networkUpper := jsTrim (jsToUpper network)
  let bankCode : Option String := configuredBankCode env networkUpper
  match bankCode with
  | some code =>
    if code = "" then
      Except.error ("Invalid network: " ++ network ++
        ". Supported networks: MTN, AirtelTigo, Telecel")
    else Except.ok code
  | none =>
    Except.error ("Invalid network: " ++ network ++
      ". Supported networks: MTN, AirtelTigo, Telecel")

/-- `getNetworkBankCode` as called on a raw request field: calling
`.toUpperCase()` on a non-string value throws a TypeError, which the
handler's surrounding try/catch turns into the same 400 path. -/
def getNetworkBankCodeJS (env : Env) (network : Json) : Except String String :=
  match network with
  | Json.jStr s => getNetworkBankCode env s
  | _ => Except.error "network.toUpperCase is not a function"

/-- Outcome of one outbound axios call: the parsed response body, or an
error that carries the upstream response payload when the server answered
with an error status (`error.response` present). -/
structure AxiosError where
  hasResponse : Bool
  respData : Json
  message : String

/-- The detail string each helper's catch block builds:
`error.response.data?.message || JSON.stringify(error.response.data)`
rendered through a template literal when a response is present, otherwise
`error.message`. -/
def upstreamErrorDetail (e : AxiosError) : String :=
  if e.hasResponse then
    jsToString (jsOr (e.respData.get "message") (Json.jStr (stringify e.respData)))
  else e.message

/-- The ordered list of response fields `authenticate` probes for a token:
`result`, `token`, `Token`, `accessToken`, `access_token`, `data.token`,
`data.Token`. -/
def tokenFieldProbe (data : Json) : List Json :=
  [data.get "result", data.get "token", data.get "Token",
    data.get "accessToken", data.get "access_token",
    (data.get "data").get "token", (data.get "data").get "Token"]

/-- `authenticate`: probe the response body for a token with the `||` chain
`result, token, Token, accessToken, access_token, data.token, data.Token`
and return the first truthy value; when none is truthy the function's own
catch block re-wraps the inner throw (a plain Error with no `response`). -/
def authenticate (outcome : Except AxiosError Json) : Except String Json :=
  match outcome with
  | Except.ok data =>
    let token := jsOrChain (tokenFieldProbe data)
    if token.truthy then Except.ok token
    else
      Except.error ("Authentication error: Authentication failed: " ++
        "No token found in response. Response: " ++ stringify data)
  | Except.error e =>
    Except.error ("Authentication error: " ++ upstreamErrorDetail e)

/-- `performNameEnquiry`: return the raw upstream payload, wrapping
transport or upstream errors with a `Name enquiry error:` prefix. -/
def performNameEnquiry (outcome : Except AxiosError Json) : Except String Json :=
  match outcome with
  | Except.ok data => Except.ok data
  | Except.error e =>
    Except.error ("Name enquiry error: " ++ upstreamErrorDetail e)

/-- The account-name extraction `||` chain run on the name-enquiry result:
`data.nametocredit, data.NameToCredit, nametocredit, accountName,
AccountName, name, Name`. -/
def extractAccountName (nameEnquiryResult : Json) : Json :=
  jsOrChain [(nameEnquiryResult.get "data").get "nametocredit",
    (nameEnquiryResult.get "data").get "NameToCredit",
    nameEnquiryResult.get "nametocredit",
    nameEnquiryResult.get "accountName",
    nameEnquiryResult.get "AccountName",
    nameEnquiryResult.get "name",
    nameEnquiryResult.get "Name"]

/-- The payment data the handler passes to `processCollection`. -/
structure PaymentData where
  accountNumber : Json
  accountName : Json
  amount : Json
  transactionID : String
  narration : Json

/-- The request body `processCollection` posts to the collection endpoint;
`Amount` carries the request's amount value unchanged. -/
structure CollectionRequest where
  PartnerCode : String
  DestBank : String
  Accountnumber : Json
  AccountName : Json
  Amount : Json
  TransactionID : String
  narration : Json

/-- The body built at the top of `processCollection`. -/
def collectionRequestBody (partnerCode : String) (paymentData : PaymentData)
    (destBank : String) : CollectionRequest :=
  { PartnerCode := partnerCode
    DestBank := destBank
    Accountnumber := paymentData.accountNumber
    AccountName := paymentData.accountName
    Amount := paymentData.amount
    TransactionID := paymentData.transactionID
    narration := paymentData.narration }

/-- `processCollection`: return the raw upstream payload, wrapping
transport or upstream errors with a `Collection error:` prefix. -/
def processCollection (outcome : Except AxiosError Json) : Except String Json :=
  match outcome with
  | Except.ok data => Except.ok data
  | Except.error e =>
    Except.error ("Collection error: " ++ upstreamErrorDetail e)

/-- The persisted payment record (`prisma.payment` row) as the handler
writes it.  `amount` is the `parseFloat` of the request amount (`none` =
NaN); `response` and `completedAt` are set only at the terminal update. -/
structure PaymentRecord where
  transactionId : String
  nameEnquiryTransactionId : String
  partnerCode : String
  destBank : String
  accountNumber : Json
  accountName : Json
  amount : Option ℚ
  narration : Json
  status : String
  verificationResponse : String
  response : Option String
  eventId : Json
  registrationId : Json
  completedAt : Bool

/-- One database write performed by the handler, recording the status it
stores. -/
inductive DbWrite where
  | create (status : String)
  | update (status : String)

/-- The status a write stores. -/
def DbWrite.status : DbWrite → String
  | DbWrite.create s => s
  | DbWrite.update s => s

/-- `const collectionStatus = collectionResult?.message?.status ||
collectionResult?.data?.status`. -/
def collectionStatusOf (collectionResult : Json) : Json :=
  jsOr ((collectionResult.get "message").get "status")
    ((collectionResult.get "data").get "status")

/-- Outcomes of the three outbound calls, fixed per request. -/
structure Upstream where
  auth : Except AxiosError Json
  nameEnquiry : Except AxiosError Json
  collection : Except AxiosError Json

/-- Everything observable about one run of the `/pay` handler: the HTTP
response (status, `success`, `message`, `error`, the `status` field of a 200
body), the final record state, the ordered database writes, whether
transaction ids were generated, and which outbound calls were made with
which collection request body. -/
structure PayOutcome where
  httpStatus : Nat
  success : Bool
  message : String
  errorMsg : Option String
  bodyStatus : Option String
  record : Option PaymentRecord
  dbWrites : List DbWrite
  transactionIDsGenerated : Bool
  authCalled : Bool
  nameEnquiryCalled : Bool
  collectionCalled : Bool
  collectionRequest : Option CollectionRequest

end PaymentGateway

namespace PaymentGateway

/-- The `/pay` handler (`app.post('/pay')`), as a function of the
environment, the outcomes the three upstream calls would produce, the two
timestamps the transaction-id generator reads, and the parsed request body.
It returns the full observable outcome: HTTP response, final record state,
and the ordered database writes. -/
def payHandler (env : Env) (up : Upstream) (t1 t2 : Nat) (body : Json) :
    PayOutcome :=
  let accountNumber := body.get "accountNumber"
  let amount := body.get "amount"
  let narration := body.get "narration"
  let network := body.get "network"
  let eventId := body.get "eventId"
  let registrationId := body.get "registrationId"
  if !accountNumber.truthy || !amount.truthy || !network.truthy then
    { httpStatus := 400
      success := false
      message := "Missing required fields: accountNumber, amount, network"
      errorMsg := none
      bodyStatus := none
      record := none
      dbWrites := []
      transactionIDsGenerated := false
      authCalled := false
      nameEnquiryCalled := false
      collectionCalled := false
      collectionRequest := none }
  else
    let nameEnquiryTransactionID := generateTransactionID t1
    let collectionTransactionID := generateTransactionID t2
    match getNetworkBankCodeJS env network with
    | Except.error msg =>
      { httpStatus := 400
        success := false
        message := msg
        errorMsg := none
        bodyStatus := none
        record := none
        dbWrites := []
        transactionIDsGenerated := true
        authCalled := false
        nameEnquiryCalled := false
        collectionCalled := false
        collectionRequest := none }
    | Except.ok bankCode =>
      match authenticate up.auth with
      | Except.error errMsg =>
        { httpStatus := 500
          success := false
          message := "Payment processing failed"
          errorMsg := some errMsg
          bodyStatus := none
          record := none
          dbWrites := []
          transactionIDsGenerated := true
          authCalled := true
          nameEnquiryCalled := false
          collectionCalled := false
          collectionRequest := none }
      | Except.ok _token =>
        match performNameEnquiry up.nameEnquiry with
        | Except.error errMsg =>
          { httpStatus := 500
            success := false
            message := "Payment processing failed"
            errorMsg := some errMsg
            bodyStatus := none
            record := none
            dbWrites := []
            transactionIDsGenerated := true
            authCalled := true
            nameEnquiryCalled := true
            collectionCalled := false
            collectionRequest := none }
        | Except.ok nameEnquiryResult =>
          let accountName := extractAccountName nameEnquiryResult
          if !accountName.truthy then
            { httpStatus := 500
              success := false
              message := "Payment processing failed"
              errorMsg := some "Account name not found in name enquiry response"
              bodyStatus := none
              record := none
              dbWrites := []
              transactionIDsGenerated := true
              authCalled := true
              nameEnquiryCalled := true
              collectionCalled := false
              collectionRequest := none }
          else
            let defaultedNarration :=
              jsOr narration (Json.jStr "Payment Gateway Transaction")
            let record0 : PaymentRecord :=
              { transactionId := collectionTransactionID
                nameEnquiryTransactionId := nameEnquiryTransactionID
                partnerCode := env.partnerCode
                destBank := bankCode
                accountNumber := accountNumber
                accountName := accountName
                amount := jsParseFloat amount
                narration := defaultedNarration
                status := "pending"
                verificationResponse := stringify nameEnquiryResult
                response := none
                eventId :=
                  if eventId.truthy then Json.jNum (jsParseInt eventId)
                  else Json.jNull
                registrationId :=
                  if registrationId.truthy then Json.jNum (jsParseInt registrationId)
                  else Json.jNull
                completedAt := false }
            let record1 := { record0 with status := "processing" }
            let paymentData : PaymentData :=
              { accountNumber := accountNumber
                accountName := accountName
                amount := amount
                transactionID := collectionTransactionID
                narration := defaultedNarration }
            let reqBody := collectionRequestBody env.partnerCode paymentData bankCode
            match processCollection up.collection with
            | Except.error errMsg =>
              let record2 :=
                { record1 with
                    status := "failed"
                    response :=
                      some (stringify (Json.jObj [("error", Json.jStr errMsg)]))
                    completedAt := true }
              { httpStatus := 500
                success := false
                message := "Payment processing failed"
                errorMsg := some errMsg
                bodyStatus := none
                record := some record2
                dbWrites := [DbWrite.create "pending", DbWrite.update "processing",
                  DbWrite.update "failed"]
                transactionIDsGenerated := true
                authCalled := true
                nameEnquiryCalled := true
                collectionCalled := true
                collectionRequest := some reqBody }
            | Except.ok collectionResult =>
              let collectionStatus := collectionStatusOf collectionResult
              let isSuccess :=
                jsEqStr collectionStatus "000" || jsEqStr collectionStatus "0"
              let finalStatus := if isSuccess then "completed" else "failed"
              let record2 :=
                { record1 with
                    status := finalStatus
                    response := some (stringify collectionResult)
                    completedAt := true }
              { httpStatus := 200
                success := true
                message := "Payment processed successfully"
                errorMsg := none
                bodyStatus := some finalStatus
                record := some record2
                dbWrites := [DbWrite.create "pending", DbWrite.update "processing",
                  DbWrite.update finalStatus]
                transactionIDsGenerated := true
                authCalled := true
                nameEnquiryCalled := true
                collectionCalled := true
                collectionRequest := some reqBody }

end PaymentGateway

namespace PaymentGateway

/-- A terminal record status: `completed` or `failed`. -/
def isTerminalStatus (s : String) : Bool :=
  s = "completed" || s = "failed"

/-- Position of a status along the lifecycle
`pending → processing → \x7bcompleted, failed\x7d`. -/
def statusRank (s : String) : Nat :=
  if s = "pending" then 0 else if s = "processing" then 1 else 2

/-- Number of record creations among the handler's database writes. -/
def createCount (writes : List DbWrite) : Nat :=
  (writes.filter fun w =>
    match w with
    | DbWrite.create _ => true
    | DbWrite.update _ => false).length

/-- A JS object field counts as present when it is not `undefined`. -/
def isPresent : Json → Bool
  | Json.jUndef => false
  | _ => true

/-- The first *present* field of the token probe list — the reading of the
claim that `authenticate` returns the first present field. -/
def firstPresentToken (data : Json) : Option Json :=
  (tokenFieldProbe data).find? isPresent

/-- The first *truthy* field of the token probe list — what the `||` chain
actually selects. -/
def firstTruthyToken (data : Json) : Option Json :=
  (tokenFieldProbe data).find? Json.truthy

end PaymentGateway

namespace PaymentGateway

/-- A `||` chain evaluates to the first truthy element of its list. -/
theorem jsOrChain_eq_of_find_some :
    ∀ (l : List Json) (t : Json), l.find? Json.truthy = some t → jsOrChain l = t
  | [], t, h => by simp at h
  | [a], t, h => by
    by_cases ha : a.truthy
    · rw [List.find?_cons_of_pos _ ha] at h
      cases h
      rfl
    · rw [List.find?_cons_of_neg _ ha] at h
      simp at h
  | a :: b :: rest, t, h => by
    by_cases ha : a.truthy
    · rw [List.find?_cons_of_pos _ ha] at h
      cases h
      show jsOr a (jsOrChain (b :: rest)) = a
      simp [jsOr, ha]
    · rw [List.find?_cons_of_neg _ ha] at h
      have ih := jsOrChain_eq_of_find_some (b :: rest) t h
      show jsOr a (jsOrChain (b :: rest)) = t
      simp [jsOr, ha, ih]

/-- When no element of a `||` chain is truthy, the chain's value is falsy. -/
theorem jsOrChain_falsy_of_find_none :
    ∀ (l : List Json), l.find? Json.truthy = none → (jsOrChain l).truthy = false
  | [], _ => rfl
  | [a], h => by
    have := List.find?_eq_none.mp h a (by simp)
    simpa using this
  | a :: b :: rest, h => by
    have ha := List.find?_eq_none.mp h a (by simp)
    have hrest : (b :: rest).find? Json.truthy = none := by
      apply List.find?_eq_none.mpr
      intro x hx
      exact List.find?_eq_none.mp h x (List.mem_cons_of_mem a hx)
    have ih := jsOrChain_falsy_of_find_none (b :: rest) hrest
    show (jsOr a (jsOrChain (b :: rest))).truthy = false
    simp only [jsOr]
    rw [if_neg (by simpa using ha)]
    exact ih

end PaymentGateway

namespace PaymentGateway

/-- C8, counterexample: on the response `\x7bresult: "", token: "T"\x7d` the
first *present* probed field is `result` with the empty string, yet
`authenticate` skips it and returns the token `"T"`, so the claim that the
first present field is returned is false. -/
theorem c8_first_present_counterexample :
    firstPresentToken (Json.jObj [("result", Json.jStr ""), ("token", Json.jStr "T")]) =
      some (Json.jStr "") ∧
    authenticate (Except.ok (Json.jObj [("result", Json.jStr ""), ("token", Json.jStr "T")])) =
      Except.ok (Json.jStr "T") ∧
    (Json.jStr "T" : Json) ≠ Json.jStr "" := by
  refine ⟨rfl, rfl, fun h => ?_⟩
  have := Json.jStr.inj h
  simp at this

/-- C8, amended: `authenticate` returns the first *truthy* value among the
probed fields `result, token, Token, accessToken, access_token, data.token,
data.Token`, in that order; if none is truthy it fails (carrying the
serialized response), and if the call itself errors it fails surfacing the
upstream error payload when available. -/
theorem c8_authenticate_first_truthy (data : Json) (e : AxiosError) :
    authenticate (Except.ok data) =
      (match firstTruthyToken data with
       | some t => Except.ok t
       | none => Except.error ("Authentication error: Authentication failed: " ++
           "No token found in response. Response: " ++ stringify data)) ∧
    authenticate (Except.error e) =
      Except.error ("Authentication error: " ++ upstreamErrorDetail e) := by
  refine ⟨?_, rfl⟩
  cases h : firstTruthyToken data with
  | some t =>
    have h1 := jsOrChain_eq_of_find_some _ _ h
    have h2 : t.truthy = true := List.find?_some h
    simp [authenticate, h1, h2]
  | none =>
    have h2 := jsOrChain_falsy_of_find_none _ h
    simp [authenticate, h2]

end PaymentGateway

namespace PaymentGateway

/-- C2: for every `/pay` request that reaches the collection step and whose
collection call returns a response without throwing, the record is finalized
to `completed` exactly when the status field extracted from the response
(`message.status`, falling back to `data.status`) is the string `"000"` or
`"0"`, and to `failed` for every other value (absence of both fields
included). -/
theorem c2_collection_status_finalization
    (env : Env) (up : Upstream) (t1 t2 : Nat) (body : Json)
    (bankCode : String) (token neRes res : Json)
    (hacc : (body.get "accountNumber").truthy = true)
    (hamt : (body.get "amount").truthy = true)
    (hnet : (body.get "network").truthy = true)
    (hbank : getNetworkBankCodeJS env (body.get "network") = Except.ok bankCode)
    (hauth : authenticate up.auth = Except.ok token)
    (hne : performNameEnquiry up.nameEnquiry = Except.ok neRes)
    (hname : (extractAccountName neRes).truthy = true)
    (hcol : up.collection = Except.ok res) :
    ∃ r, (payHandler env up t1 t2 body).record = some r ∧
      (r.status = "completed" ∨ r.status = "failed") ∧
      (r.status = "completed" ↔
        (jsEqStr (collectionStatusOf res) "000" = true ∨
         jsEqStr (collectionStatusOf res) "0" = true)) := by
  simp only [payHandler, hacc, hamt, hnet, hbank, hauth, hne, hname, hcol,
    Bool.not_true, Bool.or_self, Bool.false_or, Bool.or_false, if_false,
    processCollection]
  refine ⟨_, rfl, ?_, ?_⟩
  · by_cases h0 : jsEqStr (collectionStatusOf res) "000" = true <;>
    by_cases h1 : jsEqStr (collectionStatusOf res) "0" = true <;>
    simp [h0, h1]
  · by_cases h0 : jsEqStr (collectionStatusOf res) "000" = true <;>
    by_cases h1 : jsEqStr (collectionStatusOf res) "0" = true <;>
    simp [h0, h1]

end PaymentGateway

namespace PaymentGateway

/-- Branch analysis of the handler: either no database write happens at all,
or the writes are exactly `create pending, update processing, update t` for
a terminal `t` that is also the final record's status. -/
theorem payHandler_dbWrites_shape (env : Env) (up : Upstream) (t1 t2 : Nat)
    (body : Json) :
    (payHandler env up t1 t2 body).dbWrites = [] ∨
    ∃ t, isTerminalStatus t = true ∧
      (payHandler env up t1 t2 body).dbWrites =
        [DbWrite.create "pending", DbWrite.update "processing", DbWrite.update t] ∧
      ∃ r, (payHandler env up t1 t2 body).record = some r ∧ r.status = t := by
  simp only [payHandler]
  split
  · left; rfl
  · split
    · left; rfl
    · split
      · left; rfl
      · split
        · left; rfl
        · split
          · left; rfl
          · split
            · right
              exact ⟨"failed", rfl, rfl, _, rfl, rfl⟩
            · right
              refine ⟨_, ?_, rfl, _, rfl, rfl⟩
              split <;> rfl

end PaymentGateway

namespace PaymentGateway

/-- C3: across every possible run of the `/pay` handler, the statuses the
database writes store only move forward along
`pending → processing → \x7bcompleted, failed\x7d`: each successive write has a
strictly larger lifecycle rank (so nothing ever returns to `pending` or
`processing`, and nothing follows a terminal status), and no write stores a
status outside the four lifecycle states. -/
theorem c3_status_only_moves_forward (env : Env) (up : Upstream) (t1 t2 : Nat)
    (body : Json) :
    List.Chain' (fun a b => statusRank a.status < statusRank b.status)
      (payHandler env up t1 t2 body).dbWrites ∧
    ∀ w ∈ (payHandler env up t1 t2 body).dbWrites,
      w.status = "pending" ∨ w.status = "processing" ∨
      w.status = "completed" ∨ w.status = "failed" := by
  rcases payHandler_dbWrites_shape env up t1 t2 body with h | ⟨t, ht, h, -⟩
  · rw [h]
    exact ⟨List.chain'_nil, by simp⟩
  · have ht' : t = "completed" ∨ t = "failed" := by
      by_cases hc : t = "completed"
      · exact Or.inl hc
      · right
        simpa [isTerminalStatus, hc] using ht
    rw [h]
    rcases ht' with rfl | rfl <;>
      exact ⟨by simp [List.chain'_cons, statusRank, DbWrite.status], by simp [DbWrite.status]⟩

end PaymentGateway

namespace PaymentGateway

/-- C1: for every `/pay` request that passes validation and whose
name-enquiry step succeeds with a resolvable account name, exactly one
record is created, the last database write before the response stores a
terminal status, and that is the final record's status; moreover, no run of
the handler whatsoever performs more than one record creation. -/
theorem c1_exactly_one_terminal_record
    (env : Env) (up : Upstream) (t1 t2 : Nat) (body : Json)
    (bankCode : String) (token neRes : Json)
    (hacc : (body.get "accountNumber").truthy = true)
    (hamt : (body.get "amount").truthy = true)
    (hnet : (body.get "network").truthy = true)
    (hbank : getNetworkBankCodeJS env (body.get "network") = Except.ok bankCode)
    (hauth : authenticate up.auth = Except.ok token)
    (hne : performNameEnquiry up.nameEnquiry = Except.ok neRes)
    (hname : (extractAccountName neRes).truthy = true) :
    (createCount (payHandler env up t1 t2 body).dbWrites = 1 ∧
     ∃ r, (payHandler env up t1 t2 body).record = some r ∧
       isTerminalStatus r.status = true ∧
       ((payHandler env up t1 t2 body).dbWrites.getLast?).map DbWrite.status =
         some r.status) ∧
    ∀ (env' : Env) (up' : Upstream) (t1' t2' : Nat) (body' : Json),
      createCount (payHandler env' up' t1' t2' body').dbWrites ≤ 1 := by
  constructor
  · simp only [payHandler, hacc, hamt, hnet, hbank, hauth, hne, hname,
      Bool.not_true, Bool.or_self, Bool.false_or, Bool.or_false]
    simp only [Bool.false_eq_true, if_false]
    cases hc : up.collection with
    | error e =>
      exact ⟨rfl, _, rfl, rfl, rfl⟩
    | ok res =>
      simp only [processCollection]
      refine ⟨rfl, _, rfl, ?_, ?_⟩ <;> split <;> rfl
  · intro env' up' t1' t2' body'
    rcases payHandler_dbWrites_shape env' up' t1' t2' body' with h | ⟨t, -, h, -⟩ <;>
      rw [h]
    · exact Nat.zero_le 1
    · exact Nat.le_refl 1

end PaymentGateway

namespace PaymentGateway

/-- C4: when `accountNumber`, `amount` or `network` is missing from the
request body, the handler answers 400 with the message naming the required
fields and performs no side effects: no transaction id is generated, no
outbound call is made, and no record is created or written. -/
theorem c4_missing_field_rejected
    (env : Env) (up : Upstream) (t1 t2 : Nat) (body : Json)
    (hmiss : body.get "accountNumber" = Json.jUndef ∨
             body.get "amount" = Json.jUndef ∨
             body.get "network" = Json.jUndef) :
    (payHandler env up t1 t2 body).httpStatus = 400 ∧
    (payHandler env up t1 t2 body).success = false ∧
    (payHandler env up t1 t2 body).message =
      "Missing required fields: accountNumber, amount, network" ∧
    (payHandler env up t1 t2 body).transactionIDsGenerated = false ∧
    (payHandler env up t1 t2 body).authCalled = false ∧
    (payHandler env up t1 t2 body).nameEnquiryCalled = false ∧
    (payHandler env up t1 t2 body).collectionCalled = false ∧
    (payHandler env up t1 t2 body).record = none ∧
    (payHandler env up t1 t2 body).dbWrites = [] := by
  have hcond : (!(body.get "accountNumber").truthy || !(body.get "amount").truthy ||
      !(body.get "network").truthy) = true := by
    rcases hmiss with h | h | h <;> rw [h] <;> simp [Json.truthy]
  simp [payHandler, hcond]

/-- C9: validation tests truthiness, not presence — a request in which
`accountNumber`, `amount` or `network` is falsy (zero amount, empty string,
and so on) is rejected exactly like a missing field: 400 with the
missing-fields message and no side effects. -/
theorem c9_falsy_field_rejected
    (env : Env) (up : Upstream) (t1 t2 : Nat) (body : Json)
    (hfalsy : (body.get "accountNumber").truthy = false ∨
              (body.get "amount").truthy = false ∨
              (body.get "network").truthy = false) :
    (payHandler env up t1 t2 body).httpStatus = 400 ∧
    (payHandler env up t1 t2 body).success = false ∧
    (payHandler env up t1 t2 body).message =
      "Missing required fields: accountNumber, amount, network" ∧
    (payHandler env up t1 t2 body).transactionIDsGenerated = false ∧
    (payHandler env up t1 t2 body).authCalled = false ∧
    (payHandler env up t1 t2 body).nameEnquiryCalled = false ∧
    (payHandler env up t1 t2 body).collectionCalled = false ∧
    (payHandler env up t1 t2 body).record = none ∧
    (payHandler env up t1 t2 body).dbWrites = [] := by
  have hcond : (!(body.get "accountNumber").truthy || !(body.get "amount").truthy ||
      !(body.get "network").truthy) = true := by
    rcases hfalsy with h | h | h <;> rw [h] <;> simp
  simp [payHandler, hcond]

end PaymentGateway

namespace PaymentGateway

/-- C5: a request that passes validation but whose (string) network name,
once uppercased and trimmed, has no truthy configured bank code — because it
is not one of MTN, AIRTELTIGO, TELECEL, or because its code is unset or
empty — gets 400 with the message naming the supported set, with no record
created and no outbound gateway call made. -/
theorem c5_unsupported_network_rejected
    (env : Env) (up : Upstream) (t1 t2 : Nat) (body : Json) (s : String)
    (hacc : (body.get "accountNumber").truthy = true)
    (hamt : (body.get "amount").truthy = true)
    (hnet : body.get "network" = Json.jStr s)
    (hs : s ≠ "")
    (hbad : configuredBankCode env (jsTrim (jsToUpper s)) = none ∨
            configuredBankCode env (jsTrim (jsToUpper s)) = some "") :
    (payHandler env up t1 t2 body).httpStatus = 400 ∧
    (payHandler env up t1 t2 body).success = false ∧
    (payHandler env up t1 t2 body).message =
      "Invalid network: " ++ s ++ ". Supported networks: MTN, AirtelTigo, Telecel" ∧
    (payHandler env up t1 t2 body).authCalled = false ∧
    (payHandler env up t1 t2 body).nameEnquiryCalled = false ∧
    (payHandler env up t1 t2 body).collectionCalled = false ∧
    (payHandler env up t1 t2 body).record = none ∧
    (payHandler env up t1 t2 body).dbWrites = [] := by
  have hnet' : (body.get "network").truthy = true := by
    rw [hnet]; simpa [Json.truthy] using hs
  have hbank : getNetworkBankCodeJS env (body.get "network") =
      Except.error ("Invalid network: " ++ s ++
        ". Supported networks: MTN, AirtelTigo, Telecel") := by
    rw [hnet]
    simp only [getNetworkBankCodeJS, getNetworkBankCode]
    rcases hbad with h | h <;> simp [h]
  simp [payHandler, hacc, hamt, hnet', hbank]

/-- C6: when authentication fails (transport error or no token in the
response), when name enquiry fails, or when no account name can be
extracted from the name-enquiry response, the handler answers 500 and no
record is ever persisted for the request. -/
theorem c6_pre_record_failure_500
    (env : Env) (up : Upstream) (t1 t2 : Nat) (body : Json) (bankCode : String)
    (hacc : (body.get "accountNumber").truthy = true)
    (hamt : (body.get "amount").truthy = true)
    (hnet : (body.get "network").truthy = true)
    (hbank : getNetworkBankCodeJS env (body.get "network") = Except.ok bankCode)
    (hfail : (∃ msg, authenticate up.auth = Except.error msg) ∨
             ((∃ token, authenticate up.auth = Except.ok token) ∧
              ∃ msg, performNameEnquiry up.nameEnquiry = Except.error msg) ∨
             ((∃ token, authenticate up.auth = Except.ok token) ∧
              ∃ neRes, performNameEnquiry up.nameEnquiry = Except.ok neRes ∧
                (extractAccountName neRes).truthy = false)) :
    (payHandler env up t1 t2 body).httpStatus = 500 ∧
    (payHandler env up t1 t2 body).success = false ∧
    (payHandler env up t1 t2 body).record = none ∧
    (payHandler env up t1 t2 body).dbWrites = [] := by
  rcases hfail with ⟨msg, hauth⟩ | ⟨⟨token, hauth⟩, msg, hne⟩ |
    ⟨⟨token, hauth⟩, neRes, hne, hname⟩
  · simp [payHandler, hacc, hamt, hnet, hbank, hauth]
  · simp [payHandler, hacc, hamt, hnet, hbank, hauth, hne]
  · simp [payHandler, hacc, hamt, hnet, hbank, hauth, hne, hname]

/-- C7: a request that reaches collection and gets back a response whose
extracted status is neither `"000"` nor `"0"` (for example `"01"`) has its
record finalized to `failed`, yet the HTTP response is still 200 with
`success: true` and `status: "failed"` in the body. -/
theorem c7_nonsuccess_collection_still_200
    (env : Env) (up : Upstream) (t1 t2 : Nat) (body : Json)
    (bankCode : String) (token neRes res : Json)
    (hacc : (body.get "accountNumber").truthy = true)
    (hamt : (body.get "amount").truthy = true)
    (hnet : (body.get "network").truthy = true)
    (hbank : getNetworkBankCodeJS env (body.get "network") = Except.ok bankCode)
    (hauth : authenticate up.auth = Except.ok token)
    (hne : performNameEnquiry up.nameEnquiry = Except.ok neRes)
    (hname : (extractAccountName neRes).truthy = true)
    (hcol : up.collection = Except.ok res)
    (hns : jsEqStr (collectionStatusOf res) "000" = false)
    (hns0 : jsEqStr (collectionStatusOf res) "0" = false) :
    (payHandler env up t1 t2 body).httpStatus = 200 ∧
    (payHandler env up t1 t2 body).success = true ∧
    (payHandler env up t1 t2 body).bodyStatus = some "failed" ∧
    ∃ r, (payHandler env up t1 t2 body).record = some r ∧ r.status = "failed" := by
  simp [payHandler, hacc, hamt, hnet, hbank, hauth, hne, hname, hcol,
    processCollection, hns, hns0]

/-- C10: for every request that reaches persistence, the record stores
`parseFloat` of the request's amount while the collection request posts the
original unparsed amount value; in particular, for a non-numeric amount
string the stored amount is NaN while the upstream body still carries the
string. -/
theorem c10_amount_parse_divergence
    (env : Env) (up : Upstream) (t1 t2 : Nat) (body : Json)
    (bankCode : String) (token neRes : Json)
    (hacc : (body.get "accountNumber").truthy = true)
    (hamt : (body.get "amount").truthy = true)
    (hnet : (body.get "network").truthy = true)
    (hbank : getNetworkBankCodeJS env (body.get "network") = Except.ok bankCode)
    (hauth : authenticate up.auth = Except.ok token)
    (hne : performNameEnquiry up.nameEnquiry = Except.ok neRes)
    (hname : (extractAccountName neRes).truthy = true) :
    ∃ r req, (payHandler env up t1 t2 body).record = some r ∧
      (payHandler env up t1 t2 body).collectionRequest = some req ∧
      r.amount = jsParseFloat (body.get "amount") ∧
      req.Amount = body.get "amount" ∧
      (∀ s, body.get "amount" = Json.jStr s → parseFloatStr s = none →
        r.amount = none ∧ req.Amount = Json.jStr s) := by
  simp only [payHandler, hacc, hamt, hnet, hbank, hauth, hne, hname,
    Bool.not_true, Bool.or_self, Bool.false_or, Bool.or_false]
  simp only [Bool.false_eq_true, if_false]
  cases hc : up.collection with
  | error e =>
    refine ⟨_, _, rfl, rfl, rfl, rfl, fun s hs hnan => ?_⟩
    rw [hs]
    exact ⟨by simp [jsParseFloat, hnan], rfl⟩
  | ok res =>
    simp only [processCollection]
    refine ⟨_, _, rfl, rfl, rfl, rfl, fun s hs hnan => ?_⟩
    rw [hs]
    exact ⟨by simp [jsParseFloat, hnan], rfl⟩

end PaymentGateway

namespace PaymentGateway

/-- A fully configured environment used by the concrete witnesses. -/
def envW : Env :=
  { mtnBankCode := some "300591"
    airteltigoBankCode := some "300592"
    telecelBankCode := some "300594"
    partnerCode := "PC001" }

/-- A valid request body. -/
def bodyW : Json :=
  Json.jObj [("accountNumber", Json.jStr "0551234987"),
    ("amount", Json.jNum (some 50)), ("network", Json.jStr "MTN")]

/-- Authentication response carrying the token in the `token` field. -/
def authRespW : Json := Json.jObj [("token", Json.jStr "tok")]

/-- Name-enquiry response carrying the account holder in `name`. -/
def neRespW : Json := Json.jObj [("name", Json.jStr "John Doe")]

/-- Collection response with success status `"000"` under `data.status`. -/
def colRespW : Json :=
  Json.jObj [("data", Json.jObj [("status", Json.jStr "000")])]

/-- Collection response with non-success status `"01"` under
`message.status`. -/
def colRespFailW : Json :=
  Json.jObj [("message", Json.jObj [("status", Json.jStr "01")])]

/-- All three upstream calls succeeding. -/
def upW : Upstream :=
  { auth := Except.ok authRespW
    nameEnquiry := Except.ok neRespW
    collection := Except.ok colRespW }

/-- Upstream whose collection response carries a failing status. -/
def upFailColW : Upstream := { upW with collection := Except.ok colRespFailW }

/-- Upstream with a transport-level authentication failure. -/
def upAuthFailW : Upstream :=
  { upW with
      auth := Except.error
        { hasResponse := false, respData := Json.jUndef,
          message := "connect ECONNREFUSED" } }

/-- Body with the required `accountNumber` missing. -/
def bodyMissingW : Json :=
  Json.jObj [("amount", Json.jNum (some 50)), ("network", Json.jStr "MTN")]

/-- Body naming the unsupported network `Vodafone`. -/
def bodyVodafoneW : Json :=
  Json.jObj [("accountNumber", Json.jStr "0551234987"),
    ("amount", Json.jNum (some 50)), ("network", Json.jStr "Vodafone")]

/-- Body with a present but zero (falsy) amount. -/
def bodyZeroAmountW : Json :=
  Json.jObj [("accountNumber", Json.jStr "0551234987"),
    ("amount", Json.jNum (some 0)), ("network", Json.jStr "MTN")]

/-- Body with a non-numeric string amount. -/
def bodyAbcAmountW : Json :=
  Json.jObj [("accountNumber", Json.jStr "0551234987"),
    ("amount", Json.jStr "abc"), ("network", Json.jStr "MTN")]

/-- C1 witness: the concrete successful request creates exactly one record
and finalizes it before responding. -/
theorem c1_witness :
    createCount (payHandler envW upW 1 2 bodyW).dbWrites = 1 ∧
    ∃ r, (payHandler envW upW 1 2 bodyW).record = some r ∧
      isTerminalStatus r.status = true ∧
      ((payHandler envW upW 1 2 bodyW).dbWrites.getLast?).map DbWrite.status =
        some r.status :=
  (c1_exactly_one_terminal_record envW upW 1 2 bodyW "300591" (Json.jStr "tok")
    neRespW rfl rfl rfl rfl rfl rfl rfl).1

/-- C2 witness: the concrete request with collection status `"000"` is
finalized according to the status-code rule. -/
theorem c2_witness :
    ∃ r, (payHandler envW upW 1 2 bodyW).record = some r ∧
      (r.status = "completed" ∨ r.status = "failed") ∧
      (r.status = "completed" ↔
        (jsEqStr (collectionStatusOf colRespW) "000" = true ∨
         jsEqStr (collectionStatusOf colRespW) "0" = true)) :=
  c2_collection_status_finalization envW upW 1 2 bodyW "300591" (Json.jStr "tok")
    neRespW colRespW rfl rfl rfl rfl rfl rfl rfl rfl

/-- C4 witness: `\x7bamount: 50, network: "MTN"\x7d` is rejected with 400 and no
side effects. -/
theorem c4_witness :
    (payHandler envW upW 1 2 bodyMissingW).httpStatus = 400 ∧
    (payHandler envW upW 1 2 bodyMissingW).success = false ∧
    (payHandler envW upW 1 2 bodyMissingW).message =
      "Missing required fields: accountNumber, amount, network" ∧
    (payHandler envW upW 1 2 bodyMissingW).transactionIDsGenerated = false ∧
    (payHandler envW upW 1 2 bodyMissingW).authCalled = false ∧
    (payHandler envW upW 1 2 bodyMissingW).nameEnquiryCalled = false ∧
    (payHandler envW upW 1 2 bodyMissingW).collectionCalled = false ∧
    (payHandler envW upW 1 2 bodyMissingW).record = none ∧
    (payHandler envW upW 1 2 bodyMissingW).dbWrites = [] :=
  c4_missing_field_rejected envW upW 1 2 bodyMissingW (Or.inl rfl)

/-- C5 witness: `network: "Vodafone"` is rejected with 400 naming the
supported set, no record and no outbound call. -/
theorem c5_witness :
    (payHandler envW upW 1 2 bodyVodafoneW).httpStatus = 400 ∧
    (payHandler envW upW 1 2 bodyVodafoneW).success = false ∧
    (payHandler envW upW 1 2 bodyVodafoneW).message =
      "Invalid network: Vodafone. Supported networks: MTN, AirtelTigo, Telecel" ∧
    (payHandler envW upW 1 2 bodyVodafoneW).authCalled = false ∧
    (payHandler envW upW 1 2 bodyVodafoneW).nameEnquiryCalled = false ∧
    (payHandler envW upW 1 2 bodyVodafoneW).collectionCalled = false ∧
    (payHandler envW upW 1 2 bodyVodafoneW).record = none ∧
    (payHandler envW upW 1 2 bodyVodafoneW).dbWrites = [] :=
  c5_unsupported_network_rejected envW upW 1 2 bodyVodafoneW "Vodafone"
    rfl rfl rfl (by decide) (Or.inl rfl)

/-- C6 witness: a transport-level authentication failure yields 500 with no
record persisted. -/
theorem c6_witness :
    (payHandler envW upAuthFailW 1 2 bodyW).httpStatus = 500 ∧
    (payHandler envW upAuthFailW 1 2 bodyW).success = false ∧
    (payHandler envW upAuthFailW 1 2 bodyW).record = none ∧
    (payHandler envW upAuthFailW 1 2 bodyW).dbWrites = [] :=
  c6_pre_record_failure_500 envW upAuthFailW 1 2 bodyW "300591" rfl rfl rfl rfl
    (Or.inl ⟨_, rfl⟩)

/-- C7 witness: collection status `"01"` yields record status `failed` with
an HTTP 200 response carrying `status: "failed"`. -/
theorem c7_witness :
    (payHandler envW upFailColW 1 2 bodyW).httpStatus = 200 ∧
    (payHandler envW upFailColW 1 2 bodyW).success = true ∧
    (payHandler envW upFailColW 1 2 bodyW).bodyStatus = some "failed" ∧
    ∃ r, (payHandler envW upFailColW 1 2 bodyW).record = some r ∧
      r.status = "failed" :=
  c7_nonsuccess_collection_still_200 envW upFailColW 1 2 bodyW "300591"
    (Json.jStr "tok") neRespW colRespFailW rfl rfl rfl rfl rfl rfl rfl rfl rfl rfl

/-- C9 witness: a present but zero amount is rejected exactly like a missing
field. -/
theorem c9_witness :
    (payHandler envW upW 1 2 bodyZeroAmountW).httpStatus = 400 ∧
    (payHandler envW upW 1 2 bodyZeroAmountW).success = false ∧
    (payHandler envW upW 1 2 bodyZeroAmountW).message =
      "Missing required fields: accountNumber, amount, network" ∧
    (payHandler envW upW 1 2 bodyZeroAmountW).transactionIDsGenerated = false ∧
    (payHandler envW upW 1 2 bodyZeroAmountW).authCalled = false ∧
    (payHandler envW upW 1 2 bodyZeroAmountW).nameEnquiryCalled = false ∧
    (payHandler envW upW 1 2 bodyZeroAmountW).collectionCalled = false ∧
    (payHandler envW upW 1 2 bodyZeroAmountW).record = none ∧
    (payHandler envW upW 1 2 bodyZeroAmountW).dbWrites = [] :=
  c9_falsy_field_rejected envW upW 1 2 bodyZeroAmountW (Or.inr (Or.inl (by decide)))

/-- C10 witness: with amount `"abc"`, the stored amount is NaN while the
collection request still carries the string `"abc"`. -/
theorem c10_witness :
    (∃ r req, (payHandler envW upW 1 2 bodyAbcAmountW).record = some r ∧
      (payHandler envW upW 1 2 bodyAbcAmountW).collectionRequest = some req ∧
      r.amount = jsParseFloat (bodyAbcAmountW.get "amount") ∧
      req.Amount = bodyAbcAmountW.get "amount" ∧
      (∀ s, bodyAbcAmountW.get "amount" = Json.jStr s → parseFloatStr s = none →
        r.amount = none ∧ req.Amount = Json.jStr s)) ∧
    jsParseFloat (bodyAbcAmountW.get "amount") = none ∧
    bodyAbcAmountW.get "amount" = Json.jStr "abc" :=
  ⟨c10_amount_parse_divergence envW upW 1 2 bodyAbcAmountW "300591"
    (Json.jStr "tok") neRespW rfl rfl rfl rfl rfl rfl rfl,
   by decide, rfl⟩

end PaymentGateway
